import Mathlib

/-!
Verification of the `wsconn` websocket stream multiplexer subsystem
(`websocket_multiplexer.go`, the single-stream connection wrapper, and the
two-connection proxy) against its natural-language specification.

Bytes are modelled as `Nat` values below 256, payloads as `List Nat`, and Go
errors as a small inductive type.  Stateful code is embedded as explicit state
passing; goroutine interleavings relevant to a claim are modelled as event
traces processed by a step function that mirrors the corresponding Go code
path line by line.
-/

namespace Wsconn

/-- Go error values relevant to the subsystem.  `eof` is `io.EOF`,
`closedPipe` is `io.ErrClosedPipe`, `shortWrite` is `io.ErrShortWrite`, and
`msg s` stands for any other distinct error value. -/
inductive GErr where
  | eof
  | closedPipe
  | shortWrite
  | msg (s : String)
deriving DecidableEq

/-! ### Framing (`WriteMessage` sentinel encoding and the reader's decoding)

`WriteMessage` builds each outbound frame as
`binary.BigEndian.PutUint32(sentinel, channelID)` followed by the payload;
the reader loop does `io.ReadFull(reader, sBuf)` for 4 bytes and decodes the
channel ID with `binary.BigEndian.Uint32`. -/

/-- `binary.BigEndian.PutUint32`: the four bytes of `c`, most significant
first (each `byte(...)` conversion truncates modulo 256). -/
def putUint32BE (c : Nat) : List Nat :=
  [c / 2 ^ 24 % 256, c / 2 ^ 16 % 256, c / 2 ^ 8 % 256, c % 256]

/-- `binary.BigEndian.Uint32` on four bytes (each below 256, as delivered by
the wire): most significant byte first. -/
def uint32BE (b0 b1 b2 b3 : Nat) : Nat :=
  b0 * 2 ^ 24 + b1 * 2 ^ 16 + b2 * 2 ^ 8 + b3

/-- The frame `WriteMessage(c, p)` places on the wire: the 4-byte big-endian
sentinel followed exactly by the payload. -/
def encodeFrame (c : Nat) (p : List Nat) : List Nat :=
  putUint32BE c ++ p

/-- The reader loop's view of an inbound binary frame: `io.ReadFull` of the
4-byte sentinel (an incomplete read is fatal, modelled as `none`), then the
decoded channel ID and the remainder as the payload. -/
def decodeFrame (f : List Nat) : Option (Nat × List Nat) :=
  match f with
  | b0 :: b1 :: b2 :: b3 :: rest => some (uint32BE b0 b1 b2 b3, rest)
  | _ => none

/-! ### Inbound stream sink lifecycle (reader loop + `closeInboundSources`)

Model of the multiplexer state that governs when a sink registered via
`HandleInboundStream` has its `Close()` method called.  A map entry is either
the caller's real sink (identified by a fresh registration number) or the
`NopWriteCloser(ioutil.Discard)` substitute the reader installs after a write
failure.  `closeCount d` counts the `Close()` calls made on registration
`d`'s sink. -/

/-- An entry value of the Go map `m.inStreams`. -/
inductive Sink where
  | real (destId : Nat)
  | discard
deriving DecidableEq

/-- Go map lookup `m.inStreams[channelID]` on the association-list model. -/
def lookupSink : List (Nat × Sink) → Nat → Option Sink
  | [], _ => none
  | (c', sk) :: rest, c => if c' = c then some sk else lookupSink rest c

/-- Go map assignment `m.inStreams[channelID] = sk` when the key is present:
replace the binding. -/
def setSink : List (Nat × Sink) → Nat → Sink → List (Nat × Sink)
  | [], _, _ => []
  | (c', sk') :: rest, c, sk =>
    if c' = c then (c', sk) :: rest else (c', sk') :: setSink rest c sk

/-- Go `delete(m.inStreams, channelID)`. -/
def removeSink : List (Nat × Sink) → Nat → List (Nat × Sink)
  | [], _ => []
  | (c', sk') :: rest, c =>
    if c' = c then rest else (c', sk') :: removeSink rest c

/-- Number of map entries whose value is registration `d`'s real sink. -/
def entryCount : List (Nat × Sink) → Nat → Nat
  | [], _ => 0
  | (_, sk) :: rest, d =>
    (if sk = Sink.real d then 1 else 0) + entryCount rest d

/-- Effect of calling `Close()` on a sink: a real sink's close count is
bumped; closing the discard substitute is `nopWriteCloser.Close`, a no-op. -/
def bumpSink (cc : Nat → Nat) : Sink → Nat → Nat
  | Sink.real d => fun d' => if d' = d then cc d' + 1 else cc d'
  | Sink.discard => cc

/-- The slice of multiplexer state relevant to inbound stream sinks. -/
structure MuxIn where
  inStreams : List (Nat × Sink)
  nextId : Nat
  registered : List Nat
  closeCount : Nat → Nat

/-- `NewMultiplexer`: empty `inStreams`, nothing registered or closed. -/
def muxInInit : MuxIn :=
  { inStreams := [], nextId := 0, registered := [], closeCount := fun _ => 0 }

/-- Events affecting an inbound stream sink, one per code path of
`HandleInboundStream` and of the reader loop's `isStream` branch:
`register c` is a `HandleInboundStream(c, dest)` call (each call brings a
fresh `dest`); `frameData c` is a frame for `c` whose payload was copied to
the sink without error; `frameWriteFail c` is a frame whose copy hit a sink
write error (`dstErr != nil`); `frameEmpty c` is a frame with empty payload
(`n == 0`, remote half-close). -/
inductive InEv where
  | register (c : Nat)
  | frameData (c : Nat)
  | frameWriteFail (c : Nat)
  | frameEmpty (c : Nat)
deriving DecidableEq

/-- One step of the inbound-sink state machine, mirroring
`HandleInboundStream` (duplicate channel IDs are rejected with an error and
change nothing) and the reader loop's `isStream` branch: a write failure
closes the current sink and replaces the map entry with the discard
substitute; an empty frame closes the current sink and deletes the entry;
successful data delivery changes nothing. -/
def inStep (s : MuxIn) : InEv → MuxIn
  | InEv.register c =>
    match lookupSink s.inStreams c with
    | some _ => s
    | none =>
      { inStreams := (c, Sink.real s.nextId) :: s.inStreams
        nextId := s.nextId + 1
        registered := s.registered ++ [s.nextId]
        closeCount := s.closeCount }
  | InEv.frameData _ => s
  | InEv.frameWriteFail c =>
    match lookupSink s.inStreams c with
    | some sk =>
      { s with closeCount := bumpSink s.closeCount sk
               inStreams := setSink s.inStreams c Sink.discard }
    | none => s
  | InEv.frameEmpty c =>
    match lookupSink s.inStreams c with
    | some sk =>
      { s with closeCount := bumpSink s.closeCount sk
               inStreams := removeSink s.inStreams c }
    | none => s

/-- Run a trace of events. -/
def inRun (s : MuxIn) : List InEv → MuxIn
  | [] => s
  | e :: rest => inRun (inStep s e) rest

/-- Fold of `closeInboundSources` over the remaining map entries: each
remaining sink is closed once. -/
def closeAll (cc : Nat → Nat) : List (Nat × Sink) → Nat → Nat
  | [] => cc
  | (_, sk) :: rest => closeAll (bumpSink cc sk) rest

/-- `closeInboundSources`, run by the reader goroutine (via `defer`) when it
exits: closes every sink still in `m.inStreams` and empties the map. -/
def closeInboundSources (s : MuxIn) : MuxIn :=
  { s with closeCount := closeAll s.closeCount s.inStreams, inStreams := [] }

/-- A complete reader-goroutine lifecycle after `Start()`: process the trace
of registrations and inbound frames, then (on reader exit, for any reason)
run the deferred `closeInboundSources`. -/
def readerLifecycle (evs : List InEv) : MuxIn :=
  closeInboundSources (inRun muxInInit evs)

/-! ### `copy` and `AddOutboundStream` completion

`copy(dst, src, buf)` returns `(n uint64, dstErr, srcErr error)`: `io.EOF`
from the source is success (both errors nil); any other source read error is
returned as `srcErr`; a destination write error (or short write) is returned
as `dstErr`.  The source is modelled as the list of results of successive
`Read` calls, each data read carrying the outcome of writing those bytes. -/

/-- Outcome of `dst.Write` for one chunk: full success, an error after `nw`
bytes, or a short write of `nw < nr` bytes without error. -/
inductive WRes where
  | ok
  | fail (nw : Nat) (e : GErr)
  | short (nw : Nat)
deriving DecidableEq

/-- One `src.Read` result: `data n w` is a successful read of `n` bytes
(followed by write outcome `w`); `stop e` is `Read` returning error `e`
(possibly `io.EOF`). -/
inductive ReadEv where
  | data (n : Nat) (w : WRes)
  | stop (e : GErr)
deriving DecidableEq

/-- Return triple of `copy`: bytes written, destination error, source
error. -/
structure CopyOut where
  written : Nat
  dstErr : Option GErr
  srcErr : Option GErr
deriving DecidableEq

/-- The `copy` loop.  The Go loop only terminates on a source error or a
destination error, so by convention an exhausted event list stands for the
source reporting `io.EOF` next. -/
def copyGo (acc : Nat) : List ReadEv → CopyOut
  | [] => { written := acc, dstErr := none, srcErr := none }
  | ReadEv.stop e :: _ =>
    if e = GErr.eof then { written := acc, dstErr := none, srcErr := none }
    else { written := acc, dstErr := none, srcErr := some e }
  | ReadEv.data n w :: rest =>
    match w with
    | WRes.ok => copyGo (acc + n) rest
    | WRes.fail nw e =>
      { written := acc + nw, dstErr := some e, srcErr := none }
    | WRes.short nw =>
      { written := acc + nw, dstErr := some GErr.shortWrite, srcErr := none }

/-- Observable outcome of the tail of `AddOutboundStream`'s goroutine: the
error (if any) delivered on the per-stream error channel before it is
closed, and the error (if any) passed to the fatal `m.close`. -/
structure OutFinish where
  sentOnErrChan : Option GErr
  fatalClose : Option GErr
deriving DecidableEq

/-- The completion logic of `AddOutboundStream`, faithful to the call site
`_, srcErr, dstErr := copy(w, r, buf)`: `copy` returns `(n, dstErr, srcErr)`
positionally, so the local name `srcErr` is bound to the returned
*destination* error and the local name `dstErr` to the returned *source*
error.  The goroutine then sends its local `srcErr` (if non-nil and the
error channel is still present) on the error channel, and calls
`m.close` with its local `dstErr` if that is non-nil. -/
def addOutboundStreamFinish (o : CopyOut) (errChanPresent : Bool) : OutFinish :=
  let localSrcErr := o.dstErr
  let localDstErr := o.srcErr
  { sentOnErrChan := if errChanPresent then localSrcErr else none
    fatalClose := localDstErr }

/-- Modelled from the spec (for comparison with `addOutboundStreamFinish`):
the returned error channel carries the error from reading `r` if any (never
end-of-file, which `copyGo` already converts to success), while a
destination (connection write) error aborts the whole multiplexer. -/
def addOutboundStreamFinishSpec (o : CopyOut) (errChanPresent : Bool) :
    OutFinish :=
  { sentOnErrChan := if errChanPresent then o.srcErr else none
    fatalClose := o.dstErr }

/-! ### Reader loop, message-sink branch (`isMessage`)

The branch does `msg, err := ioutil.ReadAll(reader)`; a read error is fatal;
if `len(msg) == 0` it closes and removes the sink channel; then — with no
`else` guarding it — executes `messageChan <- msg`.  The branch is embedded
as the ordered list of actions it performs on the sink channel. -/

/-- Actions the message branch performs, in order. -/
inductive MsgAction where
  | closeChan
  | send (msg : List Nat)
  | fatal (e : GErr)
deriving DecidableEq

/-- The `isMessage` branch of the reader loop, acting on the result of
`ioutil.ReadAll(reader)`. -/
def readerMessageBranch : Except GErr (List Nat) → List MsgAction
  | Except.error e => [MsgAction.fatal e]
  | Except.ok msg =>
    (if msg.length = 0 then [MsgAction.closeChan] else []) ++
      [MsgAction.send msg]

/-! ### Reader loop, unregistered-channel branch

`n, err := io.Copy(ioutil.Discard, reader)` drains the payload; the branch
then tests `err != nil && n == 0` to decide between recording the channel in
`remoteClosed` and a fatal protocol-violation close. -/

/-- Outcome of the unregistered-channel branch. -/
inductive UnregOutcome where
  | recordRemoteClosed
  | fatalProtocol
deriving DecidableEq

/-- The unregistered-channel branch, on the result `(n, err)` of draining
the payload (for an empty payload `io.Copy` returns `(0, nil)`). -/
def readerUnregisteredBranch (n : Nat) (err : Option GErr) : UnregOutcome :=
  if err ≠ none ∧ n = 0 then UnregOutcome.recordRemoteClosed
  else UnregOutcome.fatalProtocol

/-- Modelled from the spec (for comparison with
`readerUnregisteredBranch`): an empty payload — drained successfully with
zero bytes — is recorded in `remoteClosed`; anything else (data on an
unregistered ID, or a read error) is fatal. -/
def readerUnregisteredSpec (n : Nat) (err : Option GErr) : UnregOutcome :=
  if err = none ∧ n = 0 then UnregOutcome.recordRemoteClosed
  else UnregOutcome.fatalProtocol

/-! ### Registration API (`HandleInboundStream` / `HandleInboundMessage`)

`HandleInboundStream` rejects a channel ID already present in `m.inStreams`
and otherwise stores the sink; `HandleInboundMessage` is `void`-like: it
unconditionally assigns `m.inMessages[channelID] = dest` and returns
nothing. -/

/-- Go map lookup on a `Nat`-valued association list. -/
def lookupNat : List (Nat × Nat) → Nat → Option Nat
  | [], _ => none
  | (c', v) :: rest, c => if c' = c then some v else lookupNat rest c

/-- Go map assignment `m[c] = v`: replace the binding or insert it. -/
def mapSet : List (Nat × Nat) → Nat → Nat → List (Nat × Nat)
  | [], c, v => [(c, v)]
  | (c', v') :: rest, c, v =>
    if c' = c then (c', v) :: rest else (c', v') :: mapSet rest c v

/-- Registration maps of the multiplexer, sinks identified by number. -/
structure RegState where
  inStreams : List (Nat × Nat)
  inMessages : List (Nat × Nat)
deriving DecidableEq

/-- `HandleInboundStream(channelID, dest)`: error (state unchanged) when the
channel ID is already in `m.inStreams`, otherwise record the sink. -/
def handleInboundStream (s : RegState) (c destId : Nat) :
    RegState × Option GErr :=
  match lookupNat s.inStreams c with
  | some _ => (s, some (GErr.msg "channel id already registered"))
  | none =>
    ({ s with inStreams := mapSet s.inStreams c destId }, none)

/-- `HandleInboundMessage(channelID, dest)`: unconditional map assignment,
no duplicate check, no error return. -/
def handleInboundMessage (s : RegState) (c destId : Nat) : RegState :=
  { s with inMessages := mapSet s.inMessages c destId }

/-! ### `WriteMessage` and the per-channel stream writer

State slice relevant to the outbound write path: the `sentClose` flag, the
`remoteClosed` set (to which `WriteMessage` also adds a channel on a local
zero-length send), the `closed` flag and the latched terminal error of
`m.close`.  The underlying connection's behaviour for one frame send is a
parameter. -/

/-- Outbound-path slice of the multiplexer state. -/
structure WState where
  sentClose : Bool
  remoteClosed : List Nat
  closed : Bool
  fatalErr : Option GErr
deriving DecidableEq

/-- Behaviour of the underlying connection during one `WriteMessage` call:
every step succeeds, or the first failure among `NextWriter`, the sentinel
`Write`, the payload `Write`, and the frame `Close`. -/
inductive ConnWrite where
  | ok
  | nextWriterErr (e : GErr)
  | sentinelWriteErr (e : GErr)
  | msgWriteErr (e : GErr)
  | closeErr (e : GErr)
deriving DecidableEq

/-- `m.close(err)` restricted to this state slice: a no-op once `closed`;
otherwise sets `closed`, records the error, and (via `sendClose`) sets
`sentClose`.  The connection-level close-frame and `ws.Close()` error
plumbing is outside this slice. -/
def muxClose (s : WState) (e : Option GErr) : WState :=
  if s.closed then s
  else
    { s with closed := true
             sentClose := true
             fatalErr := match e with
               | none => s.fatalErr
               | some e' => some e' }

/-- The body of `WriteMessage(channelID, msg)` before its deferred
error-escalation: fail immediately with `io.ErrClosedPipe` if `sentClose` is
set or the channel is in `remoteClosed`; record a zero-length `msg` in
`remoteClosed` before sending; then perform the frame send with the given
connection behaviour, returning the new state, the byte count, and the
error. -/
def writeMessageCore (s : WState) (c : Nat) (msg : List Nat)
    (cw : ConnWrite) : WState × Nat × Option GErr :=
  if s.sentClose = true ∨ c ∈ s.remoteClosed then
    (s, 0, some GErr.closedPipe)
  else
    let s1 := if msg.length = 0 then
      { s with remoteClosed := c :: s.remoteClosed } else s
    match cw with
    | ConnWrite.ok => (s1, msg.length, none)
    | ConnWrite.nextWriterErr e => (s1, 0, some e)
    | ConnWrite.sentinelWriteErr e => (s1, 0, some e)
    | ConnWrite.msgWriteErr e => (s1, 0, some e)
    | ConnWrite.closeErr e => (s1, msg.length, some e)

/-- `WriteMessage` including its deferred escalation: any returned error
other than `io.ErrClosedPipe` is passed to `m.close` (fatal to the whole
multiplexer); `io.ErrClosedPipe` is returned to the caller unescalated. -/
def writeMessage (s : WState) (c : Nat) (msg : List Nat) (cw : ConnWrite) :
    WState × Nat × Option GErr :=
  let r := writeMessageCore s c msg cw
  match r.2.2 with
  | none => r
  | some e =>
    if e = GErr.closedPipe then r else (muxClose r.1 (some e), r.2.1, some e)

/-- The per-channel writer returned by `GetStreamWriter`. -/
structure MWriter where
  channelID : Nat
  closed : Bool
deriving DecidableEq

/-- `mWriter.Write`: a closed writer fails with `io.ErrClosedPipe` without
touching the connection; otherwise it forwards to `WriteMessage` and marks
itself closed on any error. -/
def mWriterWrite (w : MWriter) (s : WState) (msg : List Nat)
    (cw : ConnWrite) : MWriter × WState × Nat × Option GErr :=
  if w.closed then (w, s, 0, some GErr.closedPipe)
  else
    let r := writeMessage s w.channelID msg cw
    match r.2.2 with
    | none => (w, r.1, r.2.1, none)
    | some e => ({ w with closed := true }, r.1, r.2.1, some e)

/-! ### `Proxy` result selection

After both directional copy goroutines have been waited for and the pinger
stopped, the buffered `errors` channel holds, in send order, one entry per
finished direction (its `err`, possibly nil) plus one entry per failed ping.
The final loop receives from it and returns. -/

/-- The final receive loop of `Proxy`: on the first receive, a closed
channel or an `io.EOF` entry yields nil; otherwise the entry itself (which
may be nil) is returned.  No further entries are examined. -/
def proxyResult : List (Option GErr) → Option GErr
  | [] => none
  | e :: _ => if e = some GErr.eof then none else e

/-- Modelled from the spec (for comparison with `proxyResult`): the first
entry that is neither nil nor `io.EOF`, or nil when there is none. -/
def proxyResultSpec : List (Option GErr) → Option GErr
  | [] => none
  | none :: rest => proxyResultSpec rest
  | some GErr.eof :: rest => proxyResultSpec rest
  | some e :: _ => some e

/-! ### Single-stream wrapper (`part_000`): ping loop and `Read`

The wrapper's ping goroutine selects between the closed-signal channel
(exit) and a `pingInterval` tick, on which it sends — holding the write
mutex — a control frame via
`conn.ws.WriteControl(websocket.OpPong, []byte..., deadline)`. -/

/-- Websocket opcodes. -/
inductive OpCode where
  | binary
  | text
  | ping
  | pong
  | close
deriving DecidableEq

/-- A control-frame send: its opcode, payload, and whether the write mutex
is held around the send. -/
structure ControlSend where
  op : OpCode
  payload : List Nat
  underWriteMutex : Bool
deriving DecidableEq

/-- The two `select` outcomes of one iteration of the ping goroutine. -/
inductive PingTickEv where
  | closedChanClosed
  | tick
deriving DecidableEq

/-- One iteration of `startPingInterval`'s loop: exit when the
closed-signal channel is closed; on a tick, send a control frame of opcode
`OpPong` with empty payload, holding the write mutex. -/
def startPingIntervalStep : PingTickEv → Option ControlSend
  | PingTickEv.closedChanClosed => none
  | PingTickEv.tick =>
    some { op := OpCode.pong, payload := [], underWriteMutex := true }

/-- An inbound event seen by `waitForReader`: a frame of some opcode, or a
connection error from `NextReader`. -/
inductive Frame where
  | binary
  | text (b : List Nat)
  | ping
  | pong
  | close
  | connErr (e : GErr)
deriving DecidableEq

/-- Result of `waitForReader`: a binary frame became the active reader, the
call returned an error, or no pending frame exists yet (the call blocks). -/
inductive WaitRes where
  | gotReader
  | failed (e : GErr)
  | blocked
deriving DecidableEq

/-- `waitForReader` over the pending inbound frames: loops past text
(buffered to the side channel), ping (pong reply spawned) and pong (read
deadline extended) frames; a binary frame becomes the active reader; a close
frame returns `io.EOF`; a connection error is returned as is; an empty queue
means the call is still blocked in `NextReader`. -/
def waitForReaderGo : List Frame → WaitRes
  | [] => WaitRes.blocked
  | Frame.connErr e :: _ => WaitRes.failed e
  | Frame.binary :: _ => WaitRes.gotReader
  | Frame.text _ :: rest => waitForReaderGo rest
  | Frame.ping :: rest => waitForReaderGo rest
  | Frame.pong :: rest => waitForReaderGo rest
  | Frame.close :: _ => WaitRes.failed GErr.eof

/-- Result of one `WebsocketConnection.Read` call: the returned byte count
and error, and whether `conn.reader` is still non-nil afterwards. -/
structure ReadOut where
  n : Nat
  err : Option GErr
  readerActive : Bool
deriving DecidableEq

/-- The tail of `Read` once an active frame reader exists, on that reader's
result `(rn, rerr)`: `io.EOF` clears `conn.reader` and leaves the named
results at their zero values `(0, nil)`; every other result is returned as
is with the reader kept. -/
def readFromActive (rn : Nat) (rerr : Option GErr) : ReadOut :=
  match rerr with
  | some GErr.eof => { n := 0, err := none, readerActive := false }
  | _ => { n := rn, err := rerr, readerActive := true }

/-- A full `Read` call: with no active reader it first runs
`waitForReader` over the pending frames (`none` = the call blocks); with an
active reader (or once one arrives) it reads from it. -/
def wsConnRead (readerPresent : Bool) (pending : List Frame) (rn : Nat)
    (rerr : Option GErr) : Option ReadOut :=
  if readerPresent then some (readFromActive rn rerr)
  else
    match waitForReaderGo pending with
    | WaitRes.failed e => some { n := 0, err := some e, readerActive := false }
    | WaitRes.gotReader => some (readFromActive rn rerr)
    | WaitRes.blocked => none

/-- Invariant of the inbound-sink state machine: every registration's real
sink is either still in the map (and not yet closed) or gone from the map
(and closed exactly once); unregistered numbers have no map entry and no
close; registration numbers are below the freshness counter. -/
def InvIn (s : MuxIn) : Prop :=
  (∀ d, d ∈ s.registered →
    entryCount s.inStreams d + s.closeCount d = 1) ∧
  (∀ d, d ∉ s.registered →
    entryCount s.inStreams d = 0 ∧ s.closeCount d = 0) ∧
  (∀ d, d ∈ s.registered → d < s.nextId)

/-! ## Theorems -/

theorem bumpSink_apply (cc : Nat → Nat) (sk : Sink) (d : Nat) :
    bumpSink cc sk d = cc d + (if sk = Sink.real d then 1 else 0) := by
  cases sk with
  | real d0 =>
    by_cases h : d = d0
    · subst h
      simp [bumpSink]
    · simp [bumpSink, h, Ne.symm h]
  | discard => simp [bumpSink]

theorem closeAll_apply (l : List (Nat × Sink)) (cc : Nat → Nat) (d : Nat) :
    closeAll cc l d = cc d + entryCount l d := by
  induction l generalizing cc with
  | nil => simp [closeAll, entryCount]
  | cons hd tl ih =>
    obtain ⟨c0, sk0⟩ := hd
    have h1 := ih (bumpSink cc sk0)
    have h2 := bumpSink_apply cc sk0 d
    simp only [closeAll, entryCount] at *
    omega

theorem entryCount_setSink (l : List (Nat × Sink)) (c : Nat) (sk sk' : Sink)
    (d : Nat) (h : lookupSink l c = some sk) :
    entryCount (setSink l c sk') d + (if sk = Sink.real d then 1 else 0) =
      entryCount l d + (if sk' = Sink.real d then 1 else 0) := by
  induction l with
  | nil => simp [lookupSink] at h
  | cons hd tl ih =>
    obtain ⟨c0, sk0⟩ := hd
    by_cases hc : c0 = c
    · simp only [lookupSink, if_pos hc, Option.some.injEq] at h
      subst h
      simp only [setSink, if_pos hc, entryCount]
      omega
    · simp only [lookupSink, if_neg hc] at h
      have := ih h
      simp only [setSink, if_neg hc, entryCount]
      omega

theorem entryCount_removeSink (l : List (Nat × Sink)) (c : Nat) (sk : Sink)
    (d : Nat) (h : lookupSink l c = some sk) :
    entryCount (removeSink l c) d + (if sk = Sink.real d then 1 else 0) =
      entryCount l d := by
  induction l with
  | nil => simp [lookupSink] at h
  | cons hd tl ih =>
    obtain ⟨c0, sk0⟩ := hd
    by_cases hc : c0 = c
    · simp only [lookupSink, if_pos hc, Option.some.injEq] at h
      subst h
      simp only [removeSink, if_pos hc, entryCount]
      omega
    · simp only [lookupSink, if_neg hc] at h
      have := ih h
      simp only [removeSink, if_neg hc, entryCount]
      omega

theorem muxInInit_inv : InvIn muxInInit := by
  refine ⟨?_, ?_, ?_⟩
  · intro d hd
    simp [muxInInit] at hd
  · intro d _
    exact ⟨rfl, rfl⟩
  · intro d hd
    simp [muxInInit] at hd

theorem inStep_inv (s : MuxIn) (e : InEv) (h : InvIn s) :
    InvIn (inStep s e) := by
  obtain ⟨h1, h2, h3⟩ := h
  cases e with
  | register c =>
    cases hl : lookupSink s.inStreams c with
    | some sk => simpa [inStep, hl] using ⟨h1, h2, h3⟩
    | none =>
      simp only [inStep, hl]
      refine ⟨?_, ?_, ?_⟩
      · intro d hd
        dsimp only at hd ⊢
        simp only [List.mem_append, List.mem_singleton] at hd
        rcases hd with hd | hd
        · have hne : s.nextId ≠ d := by
            have := h3 d hd
            omega
          have := h1 d hd
          simp only [entryCount, if_neg (fun he => hne (Sink.real.inj he))]
          omega
        · have hnot : d ∉ s.registered := by
            intro hmem
            have := h3 d hmem
            omega
          have := h2 d hnot
          have heq : Sink.real s.nextId = Sink.real d := by rw [hd]
          simp only [entryCount, if_pos heq]
          omega
      · intro d hd
        dsimp only at hd ⊢
        simp only [List.mem_append, List.mem_singleton, not_or] at hd
        obtain ⟨hd1, hd2⟩ := hd
        have := h2 d hd1
        have hne : s.nextId ≠ d := fun he => hd2 he.symm
        simp only [entryCount, if_neg (fun he => hne (Sink.real.inj he))]
        omega
      · intro d hd
        dsimp only at hd ⊢
        simp only [List.mem_append, List.mem_singleton] at hd
        rcases hd with hd | hd
        · have := h3 d hd
          omega
        · omega
  | frameData c => exact ⟨h1, h2, h3⟩
  | frameWriteFail c =>
    cases hl : lookupSink s.inStreams c with
    | none => simpa [inStep, hl] using ⟨h1, h2, h3⟩
    | some sk =>
      simp only [inStep, hl]
      refine ⟨?_, ?_, ?_⟩
      · intro d hd
        dsimp only at hd ⊢
        have hset := entryCount_setSink s.inStreams c sk Sink.discard d hl
        have hb := bumpSink_apply s.closeCount sk d
        have := h1 d hd
        simp only [if_neg (fun he : Sink.discard = Sink.real d =>
          Sink.noConfusion he)] at hset
        omega
      · intro d hd
        dsimp only at hd ⊢
        have hset := entryCount_setSink s.inStreams c sk Sink.discard d hl
        have hb := bumpSink_apply s.closeCount sk d
        have := h2 d hd
        simp only [if_neg (fun he : Sink.discard = Sink.real d =>
          Sink.noConfusion he)] at hset
        omega
      · intro d hd
        dsimp only at hd ⊢
        exact h3 d hd
  | frameEmpty c =>
    cases hl : lookupSink s.inStreams c with
    | none => simpa [inStep, hl] using ⟨h1, h2, h3⟩
    | some sk =>
      simp only [inStep, hl]
      refine ⟨?_, ?_, ?_⟩
      · intro d hd
        dsimp only at hd ⊢
        have hrem := entryCount_removeSink s.inStreams c sk d hl
        have hb := bumpSink_apply s.closeCount sk d
        have := h1 d hd
        omega
      · intro d hd
        dsimp only at hd ⊢
        have hrem := entryCount_removeSink s.inStreams c sk d hl
        have hb := bumpSink_apply s.closeCount sk d
        have := h2 d hd
        omega
      · intro d hd
        dsimp only at hd ⊢
        exact h3 d hd

theorem inRun_inv (evs : List InEv) (s : MuxIn) (h : InvIn s) :
    InvIn (inRun s evs) := by
  induction evs generalizing s with
  | nil => exact h
  | cons e rest ih => exact ih _ (inStep_inv s e h)

/-- Claim C2: for every sink `dest` registered with
`HandleInboundStream(c, dest)` during a reader-goroutine lifecycle (any
interleaving of registrations, delivered frames, sink write failures and
remote half-closes, followed by the deferred `closeInboundSources` when the
reader exits), the multiplexer calls `dest.Close()` exactly once — on remote
half-close, on a write failure, or on shutdown — never more and never
less. -/
theorem inboundSink_closed_exactly_once (evs : List InEv) (d : Nat)
    (hd : d ∈ (readerLifecycle evs).registered) :
    (readerLifecycle evs).closeCount d = 1 := by
  obtain ⟨h1, _, _⟩ := inRun_inv evs muxInInit muxInInit_inv
  unfold readerLifecycle closeInboundSources at hd ⊢
  have := h1 d hd
  have hc := closeAll_apply (inRun muxInInit evs).inStreams
    (inRun muxInInit evs).closeCount d
  simp only []
  omega

/-- Witness for C2 at a concrete trace: channel 1 gets a sink (registration
0) torn down by a write failure, channel 2 gets a sink (registration 1)
half-closed by the remote and is then re-registered (registration 2), which
is still open at shutdown; registration 0 is closed exactly once. -/
theorem inboundSink_closed_exactly_once_witness :
    0 ∈ (readerLifecycle [InEv.register 1, InEv.frameData 1,
      InEv.frameWriteFail 1, InEv.register 2, InEv.frameEmpty 2,
      InEv.register 2]).registered ∧
    (readerLifecycle [InEv.register 1, InEv.frameData 1,
      InEv.frameWriteFail 1, InEv.register 2, InEv.frameEmpty 2,
      InEv.register 2]).closeCount 0 = 1 :=
  ⟨by decide,
   inboundSink_closed_exactly_once [InEv.register 1, InEv.frameData 1,
     InEv.frameWriteFail 1, InEv.register 2, InEv.frameEmpty 2,
     InEv.register 2] 0 (by decide)⟩

/-- Claim C1: the frame produced by `WriteMessage(c, p)` has as its first 4
bytes the big-endian encoding of the unsigned 32-bit `c`, followed exactly
by `p`, and the reader loop decodes `c` back from those 4 bytes and treats
the remainder as the payload. -/
theorem encode_decode_roundtrip (c : Nat) (p : List Nat) (h : c < 2 ^ 32) :
    (encodeFrame c p).take 4 = putUint32BE c ∧
    (encodeFrame c p).drop 4 = p ∧
    decodeFrame (encodeFrame c p) = some (c, p) := by
  refine ⟨rfl, rfl, ?_⟩
  show some (uint32BE (c / 2 ^ 24 % 256) (c / 2 ^ 16 % 256)
    (c / 2 ^ 8 % 256) (c % 256), p) = some (c, p)
  have hu : uint32BE (c / 2 ^ 24 % 256) (c / 2 ^ 16 % 256)
      (c / 2 ^ 8 % 256) (c % 256) = c := by
    unfold uint32BE
    simp only [show (2 : Nat) ^ 24 = 16777216 from rfl,
      show (2 : Nat) ^ 16 = 65536 from rfl,
      show (2 : Nat) ^ 8 = 256 from rfl] at *
    simp only [show (2 : Nat) ^ 32 = 4294967296 from rfl] at h
    omega
  rw [hu]

theorem encode_decode_roundtrip_witness :
    3 < 2 ^ 32 ∧ decodeFrame (encodeFrame 3 [7, 9]) = some (3, [7, 9]) :=
  ⟨by norm_num, (encode_decode_roundtrip 3 [7, 9] (by norm_num)).2.2⟩

/-- Claim C3, as the code actually behaves: `AddOutboundStream` binds the
results of `copy` — declared `(n uint64, dstErr, srcErr error)` — as
`_, srcErr, dstErr`, so a source read error is passed to the fatal `m.close`
with nothing sent on the per-stream error channel, while a connection write
error is sent on the per-stream error channel with no fatal close: the exact
opposite of the claimed routing (shown against the spec-modelled
routing). -/
theorem addOutboundStream_error_routing :
    copyGo 0 [ReadEv.stop (GErr.msg "source read failed")] =
      { written := 0, dstErr := none,
        srcErr := some (GErr.msg "source read failed") } ∧
    addOutboundStreamFinish
        { written := 0, dstErr := none,
          srcErr := some (GErr.msg "source read failed") } true =
      { sentOnErrChan := none,
        fatalClose := some (GErr.msg "source read failed") } ∧
    addOutboundStreamFinishSpec
        { written := 0, dstErr := none,
          srcErr := some (GErr.msg "source read failed") } true =
      { sentOnErrChan := some (GErr.msg "source read failed"),
        fatalClose := none } ∧
    addOutboundStreamFinish
        { written := 5, dstErr := some (GErr.msg "connection write failed"),
          srcErr := none } true =
      { sentOnErrChan := some (GErr.msg "connection write failed"),
        fatalClose := none } ∧
    copyGo 0 [ReadEv.data 4 WRes.ok, ReadEv.stop GErr.eof] =
      { written := 4, dstErr := none, srcErr := none } := by
  refine ⟨?_, rfl, rfl, rfl, ?_⟩ <;> decide

/-- Claim C4, as the code actually behaves: in the reader loop's message
branch an empty payload closes the sink channel, deletes it, and then —
because the `messageChan <- msg` send is not guarded by an `else` — still
sends the empty message on the just-closed channel (in Go, a send on a
closed channel panics). -/
theorem reader_message_empty_sends_after_close :
    readerMessageBranch (Except.ok []) =
      [MsgAction.closeChan, MsgAction.send []] ∧
    readerMessageBranch (Except.ok [1, 2]) = [MsgAction.send [1, 2]] ∧
    readerMessageBranch (Except.error (GErr.msg "read failed")) =
      [MsgAction.fatal (GErr.msg "read failed")] := by
  refine ⟨?_, ?_, rfl⟩ <;> decide

/-- Claim C5, as the code actually behaves: the unregistered-channel branch
tests `err != nil && n == 0`, so a successfully drained empty payload
(`n = 0`, `err = nil`) takes the fatal protocol-violation path instead of
being recorded in `remoteClosed` (shown against the spec-modelled
condition), while a genuine read error with zero bytes is recorded as a
half-close. -/
theorem reader_unregistered_condition_inverted :
    readerUnregisteredBranch 0 none = UnregOutcome.fatalProtocol ∧
    readerUnregisteredSpec 0 none = UnregOutcome.recordRemoteClosed ∧
    readerUnregisteredBranch 0 (some (GErr.msg "connection broken")) =
      UnregOutcome.recordRemoteClosed ∧
    readerUnregisteredSpec 0 (some (GErr.msg "connection broken")) =
      UnregOutcome.fatalProtocol ∧
    readerUnregisteredBranch 3 none = UnregOutcome.fatalProtocol := by
  refine ⟨?_, ?_, ?_, ?_, ?_⟩ <;> decide

/-- Counterexample to claim C6: registering channel 5 twice through
`HandleInboundMessage` produces no error — the method has no error return
at all — and the second registration replaces the first; and a cross-method
duplicate (`HandleInboundStream` on a channel already registered as a
message sink) is accepted without error. -/
theorem duplicate_registration_counterexample :
    handleInboundMessage
        (handleInboundMessage { inStreams := [], inMessages := [] } 5 1)
        5 2 =
      { inStreams := [], inMessages := [(5, 2)] } ∧
    (handleInboundStream
        (handleInboundMessage { inStreams := [], inMessages := [] } 5 1)
        5 3).2 = none := by
  refine ⟨?_, ?_⟩ <;> decide

theorem lookupNat_mapSet (l : List (Nat × Nat)) (c v : Nat) :
    lookupNat (mapSet l c v) c = some v := by
  induction l with
  | nil => simp [mapSet, lookupNat]
  | cons hd tl ih =>
    obtain ⟨c', v'⟩ := hd
    by_cases h : c' = c
    · simp [mapSet, lookupNat, h]
    · simp [mapSet, lookupNat, h, ih]

/-- Claim C6 as amended: only `HandleInboundStream` detects duplicates, and
only against existing inbound-stream registrations — a second call for the
same channel returns an error and leaves the state undisturbed, while a
fresh channel is registered without error; `HandleInboundMessage` has no
error return and no check: it overwrites any existing message sink for the
channel and never touches `inStreams`, so cross-method duplicates go
undetected. -/
theorem registration_duplicate_handling (s : RegState) (c d : Nat) :
    (lookupNat s.inStreams c ≠ none →
      handleInboundStream s c d =
        (s, some (GErr.msg "channel id already registered"))) ∧
    (lookupNat s.inStreams c = none →
      (handleInboundStream s c d).2 = none ∧
      lookupNat (handleInboundStream s c d).1.inStreams c = some d) ∧
    lookupNat (handleInboundMessage s c d).inMessages c = some d ∧
    (handleInboundMessage s c d).inStreams = s.inStreams := by
  refine ⟨?_, ?_, lookupNat_mapSet s.inMessages c d, rfl⟩
  · intro h
    unfold handleInboundStream
    cases hl : lookupNat s.inStreams c with
    | none => exact absurd hl h
    | some v => rfl
  · intro h
    unfold handleInboundStream
    rw [h]
    exact ⟨rfl, lookupNat_mapSet s.inStreams c d⟩

theorem registration_duplicate_handling_witness :
    handleInboundStream { inStreams := [(4, 0)], inMessages := [] } 4 9 =
      ({ inStreams := [(4, 0)], inMessages := [] },
        some (GErr.msg "channel id already registered")) ∧
    lookupNat (handleInboundMessage
        { inStreams := [(4, 0)], inMessages := [] } 4 9).inMessages 4 =
      some 9 :=
  ⟨(registration_duplicate_handling
      { inStreams := [(4, 0)], inMessages := [] } 4 9).1 (by decide),
   (registration_duplicate_handling
      { inStreams := [(4, 0)], inMessages := [] } 4 9).2.2.1⟩

theorem writeMessage_guard (s : WState) (c : Nat) (msg : List Nat)
    (cw : ConnWrite) (h : s.sentClose = true ∨ c ∈ s.remoteClosed) :
    writeMessage s c msg cw = (s, 0, some GErr.closedPipe) := by
  unfold writeMessage writeMessageCore
  rw [if_pos h]
  rfl

theorem muxClose_remoteClosed (s : WState) (e : Option GErr) :
    (muxClose s e).remoteClosed = s.remoteClosed := by
  unfold muxClose
  split <;> rfl

theorem writeMessage_empty_marks_closed (s : WState) (c : Nat)
    (cw : ConnWrite) :
    (writeMessage s c [] cw).1.sentClose = true ∨
      c ∈ (writeMessage s c [] cw).1.remoteClosed := by
  by_cases h : s.sentClose = true ∨ c ∈ s.remoteClosed
  · rw [writeMessage_guard s c [] cw h]
    exact h
  · unfold writeMessage writeMessageCore
    rw [if_neg h]
    cases cw with
    | ok => exact Or.inr (List.mem_cons_self c s.remoteClosed)
    | nextWriterErr e =>
      by_cases he : e = GErr.closedPipe <;>
        simp [he, muxClose_remoteClosed]
    | sentinelWriteErr e =>
      by_cases he : e = GErr.closedPipe <;>
        simp [he, muxClose_remoteClosed]
    | msgWriteErr e =>
      by_cases he : e = GErr.closedPipe <;>
        simp [he, muxClose_remoteClosed]
    | closeErr e =>
      by_cases he : e = GErr.closedPipe <;>
        simp [he, muxClose_remoteClosed]

theorem writeMessage_after_empty (s : WState) (c : Nat) (msg' : List Nat)
    (cw cw' : ConnWrite) :
    writeMessage (writeMessage s c [] cw).1 c msg' cw' =
      ((writeMessage s c [] cw).1, 0, some GErr.closedPipe) :=
  writeMessage_guard _ c msg' cw' (writeMessage_empty_marks_closed s c cw)

/-- Claim C7: `WriteMessage(c, p)` fails immediately with the closed-pipe
condition — leaving the state untouched, so in particular without escalating
to a fatal multiplexer error — whenever the close has been sent or the
remote has half-closed `c`; a zero-length message records `c` as half-closed
before the send is attempted (for every connection behaviour), after which
every subsequent `WriteMessage` and every `GetStreamWriter` `Write` on `c`
returns the closed-pipe condition. -/
theorem writeMessage_closed_pipe_behavior (s : WState) (c : Nat)
    (msg msg' : List Nat) (cw cw' : ConnWrite) (w : MWriter)
    (hw : w.channelID = c) :
    (s.sentClose = true ∨ c ∈ s.remoteClosed →
      writeMessage s c msg cw = (s, 0, some GErr.closedPipe)) ∧
    (¬(s.sentClose = true ∨ c ∈ s.remoteClosed) →
      (writeMessageCore s c [] cw).1.remoteClosed = c :: s.remoteClosed) ∧
    writeMessage (writeMessage s c [] cw).1 c msg' cw' =
      ((writeMessage s c [] cw).1, 0, some GErr.closedPipe) ∧
    (mWriterWrite w (writeMessage s c [] cw).1 msg' cw').2.2.2 =
      some GErr.closedPipe := by
  refine ⟨writeMessage_guard s c msg cw, ?_,
    writeMessage_after_empty s c msg' cw cw', ?_⟩
  · intro h
    unfold writeMessageCore
    rw [if_neg h]
    cases cw <;> rfl
  · unfold mWriterWrite
    by_cases hc : w.closed = true
    · rw [if_pos hc]
    · rw [if_neg hc, hw, writeMessage_after_empty s c msg' cw cw']

theorem writeMessage_closed_pipe_behavior_witness :
    writeMessage
        { sentClose := true, remoteClosed := [], closed := false,
          fatalErr := none } 7 [1] ConnWrite.ok =
      ({ sentClose := true, remoteClosed := [], closed := false,
          fatalErr := none }, 0, some GErr.closedPipe) ∧
    (mWriterWrite { channelID := 7, closed := false }
        (writeMessage
          { sentClose := false, remoteClosed := [], closed := false,
            fatalErr := none } 7 [] ConnWrite.ok).1
        [2] ConnWrite.ok).2.2.2 = some GErr.closedPipe :=
  ⟨(writeMessage_closed_pipe_behavior
      { sentClose := true, remoteClosed := [], closed := false,
        fatalErr := none } 7 [1] [2] ConnWrite.ok ConnWrite.ok
      { channelID := 7, closed := false } rfl).1 (Or.inl rfl),
   (writeMessage_closed_pipe_behavior
      { sentClose := false, remoteClosed := [], closed := false,
        fatalErr := none } 7 [1] [2] ConnWrite.ok ConnWrite.ok
      { channelID := 7, closed := false } rfl).2.2.2⟩

/-- Claim C8, as the code actually behaves: the final receive loop of
`Proxy` returns after examining only the first entry of the errors queue, so
a clean nil outcome (or an `io.EOF`) recorded by one direction masks a
non-EOF error recorded later by the other direction — `Proxy` returns nil
where the claim requires the error (shown against the spec-modelled
first-non-EOF selection). -/
theorem proxy_first_entry_masks_error :
    proxyResult [none, some (GErr.msg "connection reset")] = none ∧
    proxyResultSpec [none, some (GErr.msg "connection reset")] =
      some (GErr.msg "connection reset") ∧
    proxyResult [some GErr.eof, some (GErr.msg "connection reset")] = none ∧
    proxyResultSpec [some GErr.eof, some (GErr.msg "connection reset")] =
      some (GErr.msg "connection reset") ∧
    proxyResult [some (GErr.msg "ping failed"), none] =
      some (GErr.msg "ping failed") := by
  refine ⟨?_, ?_, ?_, ?_, ?_⟩ <;> decide

/-- Claim C9, as the code actually behaves: each tick of the wrapper's
keepalive loop sends — holding the write mutex — a control frame of opcode
`OpPong`, not a ping control frame, and the loop exits when the
closed-signal channel is closed. -/
theorem pingLoop_sends_pong_opcode :
    startPingIntervalStep PingTickEv.tick =
      some { op := OpCode.pong, payload := [], underWriteMutex := true } ∧
    startPingIntervalStep PingTickEv.closedChanClosed = none := by
  exact ⟨rfl, rfl⟩

/-- Claim C10: when the active frame's reader reports end-of-frame
(`io.EOF`), `Read` clears the active reader and returns `(0, nil)` — never
`io.EOF` — and the next `Read` call, having no active reader and no pending
frame, blocks waiting for the next frame. -/
theorem read_never_returns_frame_eof (rn : Nat) (rerr : Option GErr) :
    readFromActive rn (some GErr.eof) =
      { n := 0, err := none, readerActive := false } ∧
    (readFromActive rn rerr).err ≠ some GErr.eof ∧
    wsConnRead true [] rn (some GErr.eof) =
      some { n := 0, err := none, readerActive := false } ∧
    wsConnRead false [] rn rerr = none := by
  refine ⟨rfl, ?_, rfl, rfl⟩
  cases rerr with
  | none => simp [readFromActive]
  | some e => cases e <;> simp [readFromActive]

theorem read_never_returns_frame_eof_witness :
    readFromActive 3 (some GErr.eof) =
      { n := 0, err := none, readerActive := false } ∧
    (readFromActive 3 (some (GErr.msg "network error"))).err ≠
      some GErr.eof :=
  ⟨(read_never_returns_frame_eof 3 (some (GErr.msg "network error"))).1,
   (read_never_returns_frame_eof 3 (some (GErr.msg "network error"))).2.1⟩

end Wsconn
